import Mathlib

/-!
Shallow embedding of the `enspeechpj` front-end logic.

Two widgets are modelled:
* `Azure` — the speech-recognition / pronunciation-assessment widget
  (`src/components/azure/Azure.tsx`): `ensureMicPermission`, `startMic`,
  the `recognized` event handler, `processBufferedResults` and `stopMic`.
* `KlleonLoop` / `KlleonSeq` — the two variants of the avatar widget found
  in the repository (`klleon.tsx`, which cycles through the echo messages
  with a modulo, and the unnamed variant that advances the cursor without
  wrap-around and guards `startSDK` with `isInitializing`).

Vendor SDK calls, alerts and log output are modelled as explicit action
traces / log-event lists; React state is modelled as explicit state records.
Assessment scores are carried as opaque `Option Nat` payloads (the code
never computes with them, it only passes them through to the log).
-/

/-- JavaScript falsiness of a `string | undefined` environment value:
`undefined` and the empty string are falsy. -/
def jsFalsy (o : Option String) : Bool := (o.getD "").isEmpty

namespace Azure

/-- Mirror of `sdk.ResultReason` (the values this code inspects). -/
inductive ResultReason where
  | recognizedSpeech
  | noMatch
  | canceled
  deriving DecidableEq

/-- One word entry of `paResult.detailResult.Words`. -/
structure WordResult where
  word : String
  accuracyScore : Option Nat
  deriving DecidableEq

/-- Mirror of `sdk.SpeechRecognitionResult` together with the
pronunciation-assessment payload that `PronunciationAssessmentResult.fromResult`
extracts from it (`none` models a missing score, printed as "N/A"). -/
structure SpeechRecognitionResult where
  reason : ResultReason
  text : String
  accuracyScore : Option Nat
  fluencyScore : Option Nat
  prosodyScore : Option Nat
  words : List WordResult
  deriving DecidableEq

/-- Mirror of `sdk.PronunciationAssessmentGradingSystem`. -/
inductive GradingSystem where
  | fivePoint
  | hundredMark
  deriving DecidableEq

/-- Mirror of `sdk.PronunciationAssessmentGranularity`. -/
inductive Granularity where
  | phoneme
  | word
  | fullText
  deriving DecidableEq

/-- Mirror of `sdk.PronunciationAssessmentConfig` plus the prosody flag set
via `enableProsodyAssessment`. -/
structure PronunciationAssessmentConfig where
  referenceText : String
  gradingSystem : GradingSystem
  granularity : Granularity
  enableMiscue : Bool
  prosodyEnabled : Bool
  deriving DecidableEq

/-- The configuration built in `startMic`:
`new sdk.PronunciationAssessmentConfig("", HundredMark, Phoneme, false)`
followed by `enableProsodyAssessment`. -/
def paConfig : PronunciationAssessmentConfig :=
  { referenceText := ""
    gradingSystem := GradingSystem.hundredMark
    granularity := Granularity.phoneme
    enableMiscue := false
    prosodyEnabled := true }

/-- One line appended to the on-screen log (`append`). -/
inductive LogEvent where
  | sessionStarted (id : String)
  | canceledMsg
  | startedContinuous
  | startError
  | stopError
  | errorMessage (msg : String)
  | stoppedByUser
  | noSpeechCaptured
  | finalText (text : String)
  | scores (accuracy fluency prosody : Option Nat)
  | wordLine (idx : Nat) (word : String) (accuracy : Option Nat)
  deriving DecidableEq

/-- Externally visible steps `startMic` performs, in order. -/
inductive MicAction where
  | requestMicPermission
  | alertMicDenied
  | createSpeechConfig (key region lang : String)
  | setSilenceTimeouts (initialMs endMs : String)
  | createAudioConfig
  | createRecognizer
  | applyPronunciationConfig (cfg : PronunciationAssessmentConfig)
  | attachRecognizedHandler
  | startContinuousRecognition
  | closeRecognizer
  deriving DecidableEq

/-- React state of the `AzureSpeech` component: the `log` string (as a list
of appended lines), `listening`, `recognizerRef` presence and `resultsRef`. -/
structure AzureState where
  log : List LogEvent
  listening : Bool
  recognizer : Bool
  buffer : List SpeechRecognitionResult
  deriving DecidableEq

/-- Environment as read by `startMic`:
`VITE_AZURE_SPEECH_KEY` / `VITE_AZURE_SPEECH_REGION`. -/
structure AzureEnv where
  key : Option String
  region : Option String
  deriving DecidableEq

/-- The filter applied both by the `recognized` handler and by
`processBufferedResults`:
`r.reason === sdk.ResultReason.RecognizedSpeech && r.text`. -/
def isCandidate (r : SpeechRecognitionResult) : Bool :=
  r.reason == ResultReason.recognizedSpeech && !r.text.isEmpty

/-- The `recognized` event handler: push the final result onto `resultsRef`
when it is recognized speech with non-empty text. -/
def onRecognized (st : AzureState) (r : SpeechRecognitionResult) : AzureState :=
  if isCandidate r then { st with buffer := st.buffer ++ [r] } else st

/-- The reduction step of `candidates.reduce((a, b) => b.text.length >= a.text.length ? b : a)`. -/
def pickLonger (a b : SpeechRecognitionResult) : SpeechRecognitionResult :=
  if b.text.length ≥ a.text.length then b else a

/-- Result of `processBufferedResults`: the lines it appends, the chosen
final result (if any), the scores it reports, and the buffer afterwards. -/
structure ProcessOutput where
  logLines : List LogEvent
  final : Option SpeechRecognitionResult
  reportedScores : Option (Option Nat × Option Nat × Option Nat)
  bufferAfter : List SpeechRecognitionResult
  deriving DecidableEq

/-- `processBufferedResults`: filter the buffer, report "No speech captured."
when nothing remains, otherwise reduce to the result with the longest text
(later result wins ties), print its text, its Accuracy/Fluency/Prosody scores
and the word-level details, then clear the buffer. -/
def processBufferedResults (buffer : List SpeechRecognitionResult) : ProcessOutput :=
  match buffer.filter isCandidate with
  | [] =>
    { logLines := [LogEvent.noSpeechCaptured]
      final := none
      reportedScores := none
      bufferAfter := buffer }
  | c :: cs =>
    let finalRes := cs.foldl pickLonger c
    { logLines :=
        [LogEvent.finalText finalRes.text,
         LogEvent.scores finalRes.accuracyScore finalRes.fluencyScore finalRes.prosodyScore] ++
        finalRes.words.enum.map (fun p => LogEvent.wordLine (p.1 + 1) p.2.word p.2.accuracyScore)
      final := some finalRes
      reportedScores :=
        some (finalRes.accuracyScore, finalRes.fluencyScore, finalRes.prosodyScore)
      bufferAfter := [] }

/-- The message thrown by `startMic` when the key or region is missing. -/
def envErrorMsg : String := "VITE_AZURE_SPEECH_KEY/REGION 환경변수를 확인하세요."

/-- `startMic`, parameterised by the outcome of the `getUserMedia` permission
request and of `startContinuousRecognitionAsync`.  Returns the resulting
component state and the trace of external actions performed, in order. -/
def startMic (st : AzureState) (env : AzureEnv)
    (permissionGranted startSucceeds : Bool) : AzureState × List MicAction :=
  if !permissionGranted then
    (st, [MicAction.requestMicPermission, MicAction.alertMicDenied])
  else
    let st1 : AzureState := { st with log := [], buffer := [] }
    if jsFalsy env.key || jsFalsy env.region then
      ({ st1 with log := [LogEvent.errorMessage envErrorMsg] },
       [MicAction.requestMicPermission])
    else
      let actions : List MicAction :=
        [MicAction.requestMicPermission,
         MicAction.createSpeechConfig (env.key.getD "") (env.region.getD "") "en-US",
         MicAction.setSilenceTimeouts "15000" "15000",
         MicAction.createAudioConfig,
         MicAction.createRecognizer,
         MicAction.applyPronunciationConfig paConfig,
         MicAction.attachRecognizedHandler,
         MicAction.startContinuousRecognition]
      if startSucceeds then
        ({ st1 with
            recognizer := true
            listening := true
            log := [LogEvent.startedContinuous] },
         actions)
      else
        ({ st1 with
            recognizer := false
            log := [LogEvent.startError] },
         actions ++ [MicAction.closeRecognizer])

/-- `stopMic`, parameterised by the outcome of
`stopContinuousRecognitionAsync`.  With no recognizer it is a no-op; on
success it appends the stop line, runs `processBufferedResults`, closes the
recognizer and resets `listening`. -/
def stopMic (st : AzureState) (stopSucceeds : Bool) : AzureState :=
  if !st.recognizer then st
  else if stopSucceeds then
    let out := processBufferedResults st.buffer
    { log := st.log ++ LogEvent.stoppedByUser :: out.logLines
      listening := false
      recognizer := false
      buffer := out.bufferAfter }
  else { st with log := st.log ++ [LogEvent.stopError] }

end Azure

/-- Externally visible steps of the avatar widget (vendor `KlleonChat`
calls, alerts, console errors). -/
inductive KlleonAction where
  | registerStatusListener
  | registerChatListener
  | destroyCalled
  | initCalled (sdkKey avatarId : Option String)
  | echoCalled (msg : String)
  | stopSpeechCalled
  | alertStartFirst
  | alertAllMessagesRead
  | logInitError
  deriving DecidableEq

/-- Environment as read by the avatar widget:
`VITE_API_KEY` / `VITE_API_Model`. -/
structure KlleonEnv where
  sdkKey : Option String
  avatarId : Option String
  deriving DecidableEq

/-- The two operations of the echo-script cursor the claims range over. -/
inductive EchoOp where
  | playNext
  | reset
  deriving DecidableEq

namespace KlleonLoop

/-!
Variant from `src/components/klleon/klleon.tsx`: `playNextEcho` cycles with
`(prevIndex + 1) % echoMessages.length`, and `startSDK` has no
`isInitializing` guard.
-/

/-- React state of the `klleon.tsx` variant of the `Klleon` component. -/
structure State where
  isAvatarSpeaking : Bool
  status : String
  isSDKInitialized : Bool
  echoMessages : List String
  currentEchoIndex : Nat
  deriving DecidableEq

/-- `startSDK` of the `klleon.tsx` variant: register the two listeners and
call `KlleonChat.init` unconditionally; mark the SDK initialized when the
init promise resolves, log the error otherwise. -/
def startSDK (st : State) (env : KlleonEnv) (initSucceeds : Bool) :
    State × List KlleonAction :=
  let pre : List KlleonAction :=
    [KlleonAction.registerStatusListener, KlleonAction.registerChatListener,
     KlleonAction.initCalled env.sdkKey env.avatarId]
  if initSucceeds then
    ({ st with isSDKInitialized := true }, pre)
  else
    (st, pre ++ [KlleonAction.logInitError])

/-- `playNextEcho` of the `klleon.tsx` variant: alert when the SDK is not
initialized; otherwise, when the message list is non-empty, echo the current
message and advance the cursor modulo the list length. -/
def playNextEcho (st : State) : State × List KlleonAction :=
  if !st.isSDKInitialized then
    (st, [KlleonAction.alertStartFirst])
  else if st.echoMessages.length > 0 then
    ({ st with currentEchoIndex := (st.currentEchoIndex + 1) % st.echoMessages.length },
     [KlleonAction.echoCalled (st.echoMessages.getD st.currentEchoIndex "")])
  else
    (st, [])

/-- `resetEchoIndex`: set the cursor back to zero. -/
def resetEchoIndex (st : State) : State :=
  { st with currentEchoIndex := 0 }

/-- One cursor operation (state part). -/
def stepEcho (st : State) (op : EchoOp) : State :=
  match op with
  | EchoOp.playNext => (playNextEcho st).1
  | EchoOp.reset => resetEchoIndex st

/-- A sequence of cursor operations. -/
def runEcho (st : State) (ops : List EchoOp) : State :=
  ops.foldl stepEcho st

end KlleonLoop

namespace KlleonSeq

/-!
Variant from the unnamed source file (`src/unnamed/part_000`):
`playNextEcho` stops at the end of the list instead of wrapping, and
`startSDK` is guarded by `isInitializing || isSDKInitialized` and checks the
environment variables before calling `KlleonChat.init`.
-/

/-- React state of the unnamed (guarded, non-cycling) `Klleon` variant. -/
structure State where
  isAvatarSpeaking : Bool
  status : String
  isSDKInitialized : Bool
  isInitializing : Bool
  echoMessages : List String
  currentEchoIndex : Nat
  deriving DecidableEq

/-- `startSDK` of the guarded variant: return immediately when an init is
pending or done; otherwise destroy, register listeners, fail (status IDLE)
when the SDK key or avatar id is falsy, else call `KlleonChat.init`; the
`finally` clears `isInitializing`. -/
def startSDK (st : State) (env : KlleonEnv) (initSucceeds : Bool) :
    State × List KlleonAction :=
  if st.isInitializing || st.isSDKInitialized then
    (st, [])
  else
    let pre : List KlleonAction :=
      [KlleonAction.destroyCalled, KlleonAction.registerStatusListener,
       KlleonAction.registerChatListener]
    if jsFalsy env.sdkKey || jsFalsy env.avatarId then
      ({ st with status := "IDLE", isInitializing := false },
       pre ++ [KlleonAction.logInitError])
    else if initSucceeds then
      ({ st with isSDKInitialized := true, isInitializing := false },
       pre ++ [KlleonAction.initCalled env.sdkKey env.avatarId])
    else
      ({ st with status := "IDLE", isInitializing := false },
       pre ++ [KlleonAction.initCalled env.sdkKey env.avatarId,
               KlleonAction.logInitError])

/-- `playNextEcho` of the guarded variant: alert when the SDK is not
initialized; with a non-empty list, alert once the cursor has passed the end,
otherwise echo the current message and advance the cursor by one. -/
def playNextEcho (st : State) : State × List KlleonAction :=
  if !st.isSDKInitialized then
    (st, [KlleonAction.alertStartFirst])
  else if st.echoMessages.length > 0 then
    if st.currentEchoIndex ≥ st.echoMessages.length then
      (st, [KlleonAction.alertAllMessagesRead])
    else
      ({ st with currentEchoIndex := st.currentEchoIndex + 1 },
       [KlleonAction.echoCalled (st.echoMessages.getD st.currentEchoIndex "")])
  else
    (st, [])

/-- `resetEchoIndex`: set the cursor back to zero. -/
def resetEchoIndex (st : State) : State :=
  { st with currentEchoIndex := 0 }

/-- One cursor operation (state part). -/
def stepEcho (st : State) (op : EchoOp) : State :=
  match op with
  | EchoOp.playNext => (playNextEcho st).1
  | EchoOp.reset => resetEchoIndex st

/-- A sequence of cursor operations. -/
def runEcho (st : State) (ops : List EchoOp) : State :=
  ops.foldl stepEcho st

end KlleonSeq

/-! ## Helper lemmas about the longest-text selection -/

namespace Azure

lemma text_le_pickLonger_left (a b : SpeechRecognitionResult) :
    a.text.length ≤ (pickLonger a b).text.length := by
  unfold pickLonger
  split
  · omega
  · exact Nat.le_refl _

lemma text_le_pickLonger_right (a b : SpeechRecognitionResult) :
    b.text.length ≤ (pickLonger a b).text.length := by
  unfold pickLonger
  split
  · exact Nat.le_refl _
  · omega

lemma pickLonger_pos (a b : SpeechRecognitionResult)
    (h : b.text.length ≥ a.text.length) : pickLonger a b = b := by
  unfold pickLonger; rw [if_pos h]

lemma pickLonger_neg (a b : SpeechRecognitionResult)
    (h : ¬ b.text.length ≥ a.text.length) : pickLonger a b = a := by
  unfold pickLonger; rw [if_neg h]

lemma pickLonger_eq_or (a b : SpeechRecognitionResult) :
    pickLonger a b = a ∨ pickLonger a b = b := by
  unfold pickLonger
  split
  · exact Or.inr rfl
  · exact Or.inl rfl

lemma foldl_pickLonger_mem (t : List SpeechRecognitionResult) :
    ∀ a : SpeechRecognitionResult,
      t.foldl pickLonger a = a ∨ t.foldl pickLonger a ∈ t := by
  induction t with
  | nil => intro a; exact Or.inl rfl
  | cons x xs ih =>
    intro a
    rw [List.foldl_cons]
    rcases ih (pickLonger a x) with h | h
    · rw [h]
      rcases pickLonger_eq_or a x with h2 | h2
      · rw [h2]; exact Or.inl rfl
      · rw [h2]; exact Or.inr (List.mem_cons_self x xs)
    · exact Or.inr (List.mem_cons_of_mem x h)

lemma le_foldl_pickLonger (t : List SpeechRecognitionResult) :
    ∀ a : SpeechRecognitionResult,
      a.text.length ≤ (t.foldl pickLonger a).text.length := by
  induction t with
  | nil => intro a; exact Nat.le_refl _
  | cons x xs ih =>
    intro a
    rw [List.foldl_cons]
    exact Nat.le_trans (text_le_pickLonger_left a x) (ih (pickLonger a x))

lemma foldl_pickLonger_max (t : List SpeechRecognitionResult) :
    ∀ a : SpeechRecognitionResult, ∀ x ∈ t,
      x.text.length ≤ (t.foldl pickLonger a).text.length := by
  induction t with
  | nil => intro a x hx; cases hx
  | cons y ys ih =>
    intro a x hx
    rw [List.foldl_cons]
    rcases List.mem_cons.mp hx with h | h
    · subst h
      exact Nat.le_trans (text_le_pickLonger_right a x) (le_foldl_pickLonger ys _)
    · exact ih (pickLonger a y) x h

/-- The selected result is the last element achieving its text length: the
list decomposes around it with every later element strictly shorter. -/
lemma foldl_pickLonger_last (t : List SpeechRecognitionResult)
    (a : SpeechRecognitionResult) :
    ∃ l1 l2, a :: t = l1 ++ (t.foldl pickLonger a) :: l2 ∧
      ∀ x ∈ l2, x.text.length < (t.foldl pickLonger a).text.length := by
  induction t using List.reverseRecOn with
  | nil => exact ⟨[], [], rfl, by intro x hx; cases hx⟩
  | append_singleton t' x ih =>
    rw [List.foldl_append, List.foldl_cons, List.foldl_nil]
    rcases ih with ⟨l1, l2, heq, hlt⟩
    by_cases hx : x.text.length ≥ (t'.foldl pickLonger a).text.length
    · refine ⟨a :: t', [], ?_, ?_⟩
      · have : pickLonger (t'.foldl pickLonger a) x = x := pickLonger_pos _ _ hx
        rw [this]
        simp
      · intro y hy; cases hy
    · have hpick : pickLonger (t'.foldl pickLonger a) x = t'.foldl pickLonger a :=
        pickLonger_neg _ _ hx
      rw [hpick]
      refine ⟨l1, l2 ++ [x], ?_, ?_⟩
      · have : a :: (t' ++ [x]) = (a :: t') ++ [x] := by simp
        rw [this, heq, List.append_assoc, List.cons_append]
      · intro y hy
        rcases List.mem_append.mp hy with h | h
        · exact hlt y h
        · rcases List.mem_singleton.mp h with rfl
          omega

/-- Dispatch lemma: `processBufferedResults` on a buffer with no valid
candidate. -/
lemma processBufferedResults_nil (buffer : List SpeechRecognitionResult)
    (h : buffer.filter isCandidate = []) :
    processBufferedResults buffer =
      { logLines := [LogEvent.noSpeechCaptured]
        final := none
        reportedScores := none
        bufferAfter := buffer } := by
  unfold processBufferedResults
  rw [h]

/-- Dispatch lemma: `processBufferedResults` on a buffer whose candidate list
is `c :: cs`. -/
lemma processBufferedResults_cons (buffer : List SpeechRecognitionResult)
    (c : SpeechRecognitionResult) (cs : List SpeechRecognitionResult)
    (h : buffer.filter isCandidate = c :: cs) :
    processBufferedResults buffer =
      { logLines :=
          [LogEvent.finalText (cs.foldl pickLonger c).text,
           LogEvent.scores (cs.foldl pickLonger c).accuracyScore
             (cs.foldl pickLonger c).fluencyScore
             (cs.foldl pickLonger c).prosodyScore] ++
          (cs.foldl pickLonger c).words.enum.map
            (fun p => LogEvent.wordLine (p.1 + 1) p.2.word p.2.accuracyScore)
        final := some (cs.foldl pickLonger c)
        reportedScores :=
          some ((cs.foldl pickLonger c).accuracyScore,
                (cs.foldl pickLonger c).fluencyScore,
                (cs.foldl pickLonger c).prosodyScore)
        bufferAfter := [] } := by
  unfold processBufferedResults
  rw [h]

end Azure

/-! ## Helper lemmas about the echo cursor -/

namespace KlleonLoop

lemma stepEchoLoop_invariant (st : State) (op : EchoOp)
    (h : st.currentEchoIndex ≤ st.echoMessages.length) :
    (stepEcho st op).currentEchoIndex ≤ (stepEcho st op).echoMessages.length := by
  cases op with
  | reset => exact Nat.zero_le _
  | playNext =>
    simp only [stepEcho, playNextEcho]
    split
    · exact h
    · split
      · rename_i hinit hlen
        show (st.currentEchoIndex + 1) % st.echoMessages.length ≤ st.echoMessages.length
        exact Nat.le_of_lt (Nat.mod_lt _ hlen)
      · exact h

lemma runEchoLoop_invariant (ops : List EchoOp) :
    ∀ st : State, st.currentEchoIndex ≤ st.echoMessages.length →
      (runEcho st ops).currentEchoIndex ≤ (runEcho st ops).echoMessages.length := by
  induction ops with
  | nil => intro st h; exact h
  | cons op ops ih =>
    intro st h
    exact ih (stepEcho st op) (stepEchoLoop_invariant st op h)

end KlleonLoop

namespace KlleonSeq

lemma stepEchoSeq_invariant (st : State) (op : EchoOp)
    (h : st.currentEchoIndex ≤ st.echoMessages.length) :
    (stepEcho st op).currentEchoIndex ≤ (stepEcho st op).echoMessages.length := by
  cases op with
  | reset => exact Nat.zero_le _
  | playNext =>
    simp only [stepEcho, playNextEcho]
    split
    · exact h
    · split
      · split
        · exact h
        · rename_i hinit hlen hidx
          show st.currentEchoIndex + 1 ≤ st.echoMessages.length
          omega
      · exact h

lemma runEchoSeq_invariant (ops : List EchoOp) :
    ∀ st : State, st.currentEchoIndex ≤ st.echoMessages.length →
      (runEcho st ops).currentEchoIndex ≤ (runEcho st ops).echoMessages.length := by
  induction ops with
  | nil => intro st h; exact h
  | cons op ops ih =>
    intro st h
    exact ih (stepEcho st op) (stepEchoSeq_invariant st op h)

end KlleonSeq

/-- Demo state for the cycling (`klleon.tsx`) variant. -/
def demoLoopState : KlleonLoop.State :=
  { isAvatarSpeaking := false
    status := "IDLE"
    isSDKInitialized := true
    echoMessages := ["hello there", "bye"]
    currentEchoIndex := 0 }

/-- Demo state for the guarded (unnamed-file) variant. -/
def demoSeqState : KlleonSeq.State :=
  { isAvatarSpeaking := false
    status := "IDLE"
    isSDKInitialized := true
    isInitializing := false
    echoMessages := ["hello there", "bye"]
    currentEchoIndex := 0 }

/-- Demo state for the cycling variant with the SDK already initialized. -/
def demoLoopInitializedState : KlleonLoop.State :=
  { isAvatarSpeaking := false
    status := "IDLE"
    isSDKInitialized := true
    echoMessages := []
    currentEchoIndex := 0 }

/-- Demo state for the guarded variant with the SDK already initialized. -/
def demoSeqInitializedState : KlleonSeq.State :=
  { isAvatarSpeaking := false
    status := "IDLE"
    isSDKInitialized := true
    isInitializing := false
    echoMessages := []
    currentEchoIndex := 0 }

/-! ## Claim theorems -/

/-- C2: starting from cursor 0, under any sequence of `playNextEcho` and
`resetEchoIndex` operations, the dialogue cursor `currentEchoIndex` never
exceeds the length of `echoMessages` — in both variants of the avatar
widget. -/
theorem C2_echo_cursor_bounded (stL : KlleonLoop.State) (stS : KlleonSeq.State)
    (opsL opsS : List EchoOp)
    (hL : stL.currentEchoIndex = 0) (hS : stS.currentEchoIndex = 0) :
    (KlleonLoop.runEcho stL opsL).currentEchoIndex ≤
      (KlleonLoop.runEcho stL opsL).echoMessages.length ∧
    (KlleonSeq.runEcho stS opsS).currentEchoIndex ≤
      (KlleonSeq.runEcho stS opsS).echoMessages.length :=
  ⟨KlleonLoop.runEchoLoop_invariant opsL stL (by rw [hL]; exact Nat.zero_le _),
   KlleonSeq.runEchoSeq_invariant opsS stS (by rw [hS]; exact Nat.zero_le _)⟩

/-- Witness for C2 at concrete states and operation sequences. -/
theorem C2_echo_cursor_bounded_witness :
    demoLoopState.currentEchoIndex = 0 ∧ demoSeqState.currentEchoIndex = 0 ∧
    ((KlleonLoop.runEcho demoLoopState
        [EchoOp.playNext, EchoOp.playNext, EchoOp.playNext]).currentEchoIndex ≤
      (KlleonLoop.runEcho demoLoopState
        [EchoOp.playNext, EchoOp.playNext, EchoOp.playNext]).echoMessages.length ∧
     (KlleonSeq.runEcho demoSeqState
        [EchoOp.playNext, EchoOp.playNext, EchoOp.playNext]).currentEchoIndex ≤
      (KlleonSeq.runEcho demoSeqState
        [EchoOp.playNext, EchoOp.playNext, EchoOp.playNext]).echoMessages.length) :=
  ⟨rfl, rfl,
   C2_echo_cursor_bounded demoLoopState demoSeqState
     [EchoOp.playNext, EchoOp.playNext, EchoOp.playNext]
     [EchoOp.playNext, EchoOp.playNext, EchoOp.playNext] rfl rfl⟩

/-- C7: every cursor update either advances the cursor by one, resets it to
zero, or leaves it unchanged — no operation moves it to any other smaller
value.  For the cycling variant the hypothesis restricts to the states its
operations ever reach (cursor inside the list, or empty list). -/
theorem C7_cursor_advance_or_reset (stL : KlleonLoop.State) (stS : KlleonSeq.State)
    (opL opS : EchoOp)
    (hL : stL.currentEchoIndex < stL.echoMessages.length ∨ stL.echoMessages.length = 0) :
    ((KlleonLoop.stepEcho stL opL).currentEchoIndex = stL.currentEchoIndex + 1 ∨
     (KlleonLoop.stepEcho stL opL).currentEchoIndex = 0 ∨
     (KlleonLoop.stepEcho stL opL).currentEchoIndex = stL.currentEchoIndex) ∧
    ((KlleonSeq.stepEcho stS opS).currentEchoIndex = stS.currentEchoIndex + 1 ∨
     (KlleonSeq.stepEcho stS opS).currentEchoIndex = 0 ∨
     (KlleonSeq.stepEcho stS opS).currentEchoIndex = stS.currentEchoIndex) := by
  constructor
  · cases opL with
    | reset => exact Or.inr (Or.inl rfl)
    | playNext =>
      simp only [KlleonLoop.stepEcho, KlleonLoop.playNextEcho]
      split
      · exact Or.inr (Or.inr rfl)
      · split
        · rename_i hinit hlen
          show (stL.currentEchoIndex + 1) % stL.echoMessages.length = _ ∨
            (stL.currentEchoIndex + 1) % stL.echoMessages.length = 0 ∨
            (stL.currentEchoIndex + 1) % stL.echoMessages.length = stL.currentEchoIndex
          rcases hL with hL | hL
          · by_cases hend : stL.currentEchoIndex + 1 = stL.echoMessages.length
            · rw [hend]
              exact Or.inr (Or.inl (Nat.mod_self _))
            · rw [Nat.mod_eq_of_lt (by omega)]
              exact Or.inl rfl
          · omega
        · exact Or.inr (Or.inr rfl)
  · cases opS with
    | reset => exact Or.inr (Or.inl rfl)
    | playNext =>
      simp only [KlleonSeq.stepEcho, KlleonSeq.playNextEcho]
      split
      · exact Or.inr (Or.inr rfl)
      · split
        · split
          · exact Or.inr (Or.inr rfl)
          · exact Or.inl rfl
        · exact Or.inr (Or.inr rfl)

/-- Witness for C7 at concrete states and operations. -/
theorem C7_cursor_advance_or_reset_witness :
    (demoLoopState.currentEchoIndex < demoLoopState.echoMessages.length ∨
      demoLoopState.echoMessages.length = 0) ∧
    (((KlleonLoop.stepEcho demoLoopState EchoOp.playNext).currentEchoIndex =
        demoLoopState.currentEchoIndex + 1 ∨
      (KlleonLoop.stepEcho demoLoopState EchoOp.playNext).currentEchoIndex = 0 ∨
      (KlleonLoop.stepEcho demoLoopState EchoOp.playNext).currentEchoIndex =
        demoLoopState.currentEchoIndex) ∧
     ((KlleonSeq.stepEcho demoSeqState EchoOp.reset).currentEchoIndex =
        demoSeqState.currentEchoIndex + 1 ∨
      (KlleonSeq.stepEcho demoSeqState EchoOp.reset).currentEchoIndex = 0 ∨
      (KlleonSeq.stepEcho demoSeqState EchoOp.reset).currentEchoIndex =
        demoSeqState.currentEchoIndex)) :=
  ⟨Or.inl (by decide),
   C7_cursor_advance_or_reset demoLoopState demoSeqState EchoOp.playNext EchoOp.reset
     (Or.inl (by decide))⟩

/-- Counterexample to C3 as stated: in the `klleon.tsx` variant `startSDK`
has no guard, so with the SDK already initialized it still calls
`KlleonChat.init`. -/
theorem C3_counterexample :
    demoLoopInitializedState.isSDKInitialized = true ∧
    KlleonAction.initCalled (some "key") (some "avatar") ∈
      (KlleonLoop.startSDK demoLoopInitializedState
        { sdkKey := some "key", avatarId := some "avatar" } true).2 :=
  ⟨rfl, by decide⟩

/-- C3 (amended): in the guarded (unnamed-file) variant, whenever
`isInitializing` or `isSDKInitialized` is true, `startSDK` returns
immediately: the state is unchanged and no vendor call — in particular no
`KlleonChat.init` — is made. -/
theorem C3_guard_blocks_init (st : KlleonSeq.State) (env : KlleonEnv) (ok : Bool)
    (h : st.isInitializing = true ∨ st.isSDKInitialized = true) :
    KlleonSeq.startSDK st env ok = (st, []) := by
  unfold KlleonSeq.startSDK
  rcases h with h | h <;> simp [h]

/-- Witness for the amended C3 at a concrete initialized state. -/
theorem C3_guard_blocks_init_witness :
    (demoSeqInitializedState.isInitializing = true ∨
      demoSeqInitializedState.isSDKInitialized = true) ∧
    KlleonSeq.startSDK demoSeqInitializedState
        { sdkKey := some "key", avatarId := some "avatar" } true =
      (demoSeqInitializedState, []) :=
  ⟨Or.inr rfl,
   C3_guard_blocks_init demoSeqInitializedState
     { sdkKey := some "key", avatarId := some "avatar" } true (Or.inr rfl)⟩

/-- A short recognized utterance. -/
def demoResultShort : Azure.SpeechRecognitionResult :=
  { reason := Azure.ResultReason.recognizedSpeech
    text := "hi"
    accuracyScore := some 80
    fluencyScore := some 70
    prosodyScore := some 60
    words := [] }

/-- A longer recognized utterance. -/
def demoResultLong : Azure.SpeechRecognitionResult :=
  { reason := Azure.ResultReason.recognizedSpeech
    text := "hello world"
    accuracyScore := some 90
    fluencyScore := some 85
    prosodyScore := some 75
    words := [] }

/-- A recognized utterance of the same text length as `demoResultTieB`. -/
def demoResultTieA : Azure.SpeechRecognitionResult :=
  { reason := Azure.ResultReason.recognizedSpeech
    text := "abcde"
    accuracyScore := some 50
    fluencyScore := some 50
    prosodyScore := some 50
    words := [] }

/-- A recognized utterance of the same text length as `demoResultTieA`,
recognized later. -/
def demoResultTieB : Azure.SpeechRecognitionResult :=
  { reason := Azure.ResultReason.recognizedSpeech
    text := "vwxyz"
    accuracyScore := some 51
    fluencyScore := some 52
    prosodyScore := some 53
    words := [] }

/-- A buffered entry that is not recognized speech. -/
def demoResultNoMatch : Azure.SpeechRecognitionResult :=
  { reason := Azure.ResultReason.noMatch
    text := ""
    accuracyScore := none
    fluencyScore := none
    prosodyScore := none
    words := [] }

/-- The idle state of the Azure widget. -/
def demoAzureIdle : Azure.AzureState :=
  { log := [], listening := false, recognizer := false, buffer := [] }

/-- C1: with a non-empty buffer of recognized utterances, the stop callback
of `stopMic` runs `processBufferedResults`, which selects exactly one
buffered utterance whose text length is greater than or equal to every other
buffered utterance's and reports that utterance's accuracy, fluency and
prosody scores. -/
theorem C1_longest_utterance_selected (buffer : List Azure.SpeechRecognitionResult)
    (hall : ∀ r ∈ buffer, Azure.isCandidate r = true) (hne : buffer ≠ []) :
    ∃ f, (Azure.processBufferedResults buffer).final = some f ∧ f ∈ buffer ∧
      (∀ x ∈ buffer, x.text.length ≤ f.text.length) ∧
      (Azure.processBufferedResults buffer).reportedScores =
        some (f.accuracyScore, f.fluencyScore, f.prosodyScore) ∧
      ∀ st : Azure.AzureState, st.recognizer = true → st.buffer = buffer →
        (Azure.stopMic st true).log =
          st.log ++ Azure.LogEvent.stoppedByUser ::
            (Azure.processBufferedResults buffer).logLines := by
  have hfilter : buffer.filter Azure.isCandidate = buffer :=
    List.filter_eq_self.mpr hall
  rcases hbuf : buffer with _ | ⟨c, cs⟩
  · exact absurd hbuf hne
  · subst hbuf
    refine ⟨cs.foldl Azure.pickLonger c, ?_, ?_, ?_, ?_, ?_⟩
    · rw [Azure.processBufferedResults_cons _ c cs hfilter]
    · rcases Azure.foldl_pickLonger_mem cs c with h | h
      · rw [h]; exact List.mem_cons_self _ _
      · exact List.mem_cons_of_mem _ h
    · intro x hx
      rcases List.mem_cons.mp hx with rfl | hx
      · exact Azure.le_foldl_pickLonger cs x
      · exact Azure.foldl_pickLonger_max cs c x hx
    · rw [Azure.processBufferedResults_cons _ c cs hfilter]
    · intro st hrec hbuf2
      simp only [Azure.stopMic, hrec, hbuf2, Bool.not_true, Bool.false_eq_true,
        if_false, if_true]

/-- Witness for C1 at a concrete two-utterance buffer. -/
theorem C1_longest_utterance_selected_witness :
    (∀ r ∈ [demoResultShort, demoResultLong], Azure.isCandidate r = true) ∧
    ([demoResultShort, demoResultLong] ≠ ([] : List Azure.SpeechRecognitionResult)) ∧
    (∃ f, (Azure.processBufferedResults [demoResultShort, demoResultLong]).final = some f ∧
      f ∈ [demoResultShort, demoResultLong] ∧
      (∀ x ∈ [demoResultShort, demoResultLong], x.text.length ≤ f.text.length) ∧
      (Azure.processBufferedResults [demoResultShort, demoResultLong]).reportedScores =
        some (f.accuracyScore, f.fluencyScore, f.prosodyScore) ∧
      ∀ st : Azure.AzureState, st.recognizer = true →
        st.buffer = [demoResultShort, demoResultLong] →
        (Azure.stopMic st true).log =
          st.log ++ Azure.LogEvent.stoppedByUser ::
            (Azure.processBufferedResults [demoResultShort, demoResultLong]).logLines) :=
  ⟨by decide, by decide,
   C1_longest_utterance_selected [demoResultShort, demoResultLong] (by decide) (by decide)⟩

/-- C9: the reduction prefers the later element on ties, so the selected
result is the last one attaining its (maximal) text length: the candidate
list splits as `l1 ++ f :: l2` with every element of `l2` strictly shorter,
and `f` at least as long as every candidate. -/
theorem C9_tie_prefers_latest (buffer : List Azure.SpeechRecognitionResult)
    (hne : buffer.filter Azure.isCandidate ≠ []) :
    ∃ f l1 l2, (Azure.processBufferedResults buffer).final = some f ∧
      buffer.filter Azure.isCandidate = l1 ++ f :: l2 ∧
      (∀ x ∈ l2, x.text.length < f.text.length) ∧
      (∀ x ∈ buffer.filter Azure.isCandidate, x.text.length ≤ f.text.length) := by
  rcases hc : buffer.filter Azure.isCandidate with _ | ⟨c, cs⟩
  · exact absurd hc hne
  · obtain ⟨l1, l2, heq, hlt⟩ := Azure.foldl_pickLonger_last cs c
    refine ⟨cs.foldl Azure.pickLonger c, l1, l2, ?_, ?_, hlt, ?_⟩
    · rw [Azure.processBufferedResults_cons _ c cs hc]
    · exact heq
    · intro x hx
      rcases List.mem_cons.mp hx with rfl | hx
      · exact Azure.le_foldl_pickLonger cs x
      · exact Azure.foldl_pickLonger_max cs c x hx

/-- Witness for C9 at a concrete buffer with two utterances of equal maximal
text length: the later one is selected. -/
theorem C9_tie_prefers_latest_witness :
    ([demoResultTieA, demoResultTieB].filter Azure.isCandidate ≠ []) ∧
    (Azure.processBufferedResults [demoResultTieA, demoResultTieB]).final =
      some demoResultTieB ∧
    (∃ f l1 l2,
      (Azure.processBufferedResults [demoResultTieA, demoResultTieB]).final = some f ∧
      [demoResultTieA, demoResultTieB].filter Azure.isCandidate = l1 ++ f :: l2 ∧
      (∀ x ∈ l2, x.text.length < f.text.length) ∧
      (∀ x ∈ [demoResultTieA, demoResultTieB].filter Azure.isCandidate,
        x.text.length ≤ f.text.length)) :=
  ⟨by decide, by decide,
   C9_tie_prefers_latest [demoResultTieA, demoResultTieB] (by decide)⟩

/-- C4: with the speech key or region missing, `startMic` logs a user-visible
error, creates no recognizer and does not start recognition (listening stays
false); with the SDK key or avatar id missing, the guarded `startSDK` logs
the init error, never calls `KlleonChat.init` and does not mark the SDK
initialized. -/
theorem C4_missing_env_fails_fast
    (stA : Azure.AzureState) (envA : Azure.AzureEnv) (b : Bool)
    (stK : KlleonSeq.State) (envK : KlleonEnv) (ok : Bool)
    (hmissA : envA.key = none ∨ envA.region = none)
    (hlisten : stA.listening = false) (hrec : stA.recognizer = false)
    (hguard1 : stK.isInitializing = false) (hguard2 : stK.isSDKInitialized = false)
    (hmissK : envK.sdkKey = none ∨ envK.avatarId = none) :
    (Azure.startMic stA envA true b).1.log =
      [Azure.LogEvent.errorMessage Azure.envErrorMsg] ∧
    (Azure.startMic stA envA true b).1.listening = false ∧
    (Azure.startMic stA envA true b).1.recognizer = false ∧
    Azure.MicAction.createRecognizer ∉ (Azure.startMic stA envA true b).2 ∧
    Azure.MicAction.startContinuousRecognition ∉ (Azure.startMic stA envA true b).2 ∧
    (KlleonSeq.startSDK stK envK ok).1.isSDKInitialized = false ∧
    KlleonAction.logInitError ∈ (KlleonSeq.startSDK stK envK ok).2 ∧
    (∀ k a, KlleonAction.initCalled k a ∉ (KlleonSeq.startSDK stK envK ok).2) := by
  have hfA : (jsFalsy envA.key || jsFalsy envA.region) = true := by
    rcases hmissA with h | h
    · simp [jsFalsy, h]
      exact Or.inl (by decide)
    · simp [jsFalsy, h]
      exact Or.inr (by decide)
  have hA : Azure.startMic stA envA true b =
      ({ log := [Azure.LogEvent.errorMessage Azure.envErrorMsg]
         listening := stA.listening
         recognizer := stA.recognizer
         buffer := [] },
       [Azure.MicAction.requestMicPermission]) := by
    unfold Azure.startMic
    simp [hfA]
  have hfK : (jsFalsy envK.sdkKey || jsFalsy envK.avatarId) = true := by
    rcases hmissK with h | h
    · simp [jsFalsy, h]
      exact Or.inl (by decide)
    · simp [jsFalsy, h]
      exact Or.inr (by decide)
  have hK : KlleonSeq.startSDK stK envK ok =
      ({ stK with status := "IDLE", isInitializing := false },
       [KlleonAction.destroyCalled, KlleonAction.registerStatusListener,
        KlleonAction.registerChatListener, KlleonAction.logInitError]) := by
    unfold KlleonSeq.startSDK
    simp [hguard1, hguard2, hfK]
  refine ⟨?_, ?_, ?_, ?_, ?_, ?_, ?_, ?_⟩
  · rw [hA]
  · rw [hA]; exact hlisten
  · rw [hA]; exact hrec
  · rw [hA]; simp
  · rw [hA]; simp
  · rw [hK]; exact hguard2
  · rw [hK]; simp
  · intro k a; rw [hK]; simp

/-- Witness for C4 at concrete missing-environment inputs. -/
theorem C4_missing_env_fails_fast_witness :
    (({ key := none, region := some "koreacentral" } : Azure.AzureEnv).key = none ∨
      ({ key := none, region := some "koreacentral" } : Azure.AzureEnv).region = none) ∧
    demoAzureIdle.listening = false ∧
    (Azure.startMic demoAzureIdle { key := none, region := some "koreacentral" } true
      true).1.log = [Azure.LogEvent.errorMessage Azure.envErrorMsg] ∧
    (Azure.startMic demoAzureIdle { key := none, region := some "koreacentral" } true
      true).1.listening = false ∧
    Azure.MicAction.createRecognizer ∉
      (Azure.startMic demoAzureIdle { key := none, region := some "koreacentral" } true
        true).2 ∧
    (KlleonSeq.startSDK
        { isAvatarSpeaking := false, status := "IDLE", isSDKInitialized := false,
          isInitializing := false, echoMessages := [], currentEchoIndex := 0 }
        { sdkKey := none, avatarId := some "avatar" } true).1.isSDKInitialized = false ∧
    (∀ k a, KlleonAction.initCalled k a ∉
      (KlleonSeq.startSDK
        { isAvatarSpeaking := false, status := "IDLE", isSDKInitialized := false,
          isInitializing := false, echoMessages := [], currentEchoIndex := 0 }
        { sdkKey := none, avatarId := some "avatar" } true).2) := by
  have h := C4_missing_env_fails_fast demoAzureIdle
    { key := none, region := some "koreacentral" } true
    { isAvatarSpeaking := false, status := "IDLE", isSDKInitialized := false,
      isInitializing := false, echoMessages := [], currentEchoIndex := 0 }
    { sdkKey := none, avatarId := some "avatar" } true
    (Or.inl rfl) rfl rfl rfl rfl (Or.inl rfl)
  exact ⟨Or.inl rfl, rfl, h.1, h.2.1, h.2.2.2.1, h.2.2.2.2.2.1, h.2.2.2.2.2.2.2⟩

/-- C5: the pronunciation-assessment configuration is built in unscripted
mode — empty reference text, hundred-mark grading, phoneme granularity,
miscue disabled, prosody enabled — and applied to the recognizer strictly
before continuous recognition is started. -/
theorem C5_unscripted_config_applied_before_start
    (st : Azure.AzureState) (env : Azure.AzureEnv) (b : Bool)
    (hk : jsFalsy env.key = false) (hr : jsFalsy env.region = false) :
    Azure.paConfig.referenceText = "" ∧
    Azure.paConfig.gradingSystem = Azure.GradingSystem.hundredMark ∧
    Azure.paConfig.granularity = Azure.Granularity.phoneme ∧
    Azure.paConfig.enableMiscue = false ∧
    Azure.paConfig.prosodyEnabled = true ∧
    ∃ i j, i < j ∧
      (Azure.startMic st env true b).2.get? i =
        some (Azure.MicAction.applyPronunciationConfig Azure.paConfig) ∧
      (Azure.startMic st env true b).2.get? j =
        some Azure.MicAction.startContinuousRecognition := by
  have hcond : (jsFalsy env.key || jsFalsy env.region) = false := by
    rw [hk, hr]
    rfl
  refine ⟨rfl, rfl, rfl, rfl, rfl, 5, 7, by omega, ?_, ?_⟩ <;>
    · unfold Azure.startMic
      rw [hcond]
      cases b <;> rfl

/-- Witness for C5 at a concrete environment. -/
theorem C5_unscripted_config_applied_before_start_witness :
    jsFalsy (some "somekey") = false ∧ jsFalsy (some "koreacentral") = false ∧
    (Azure.paConfig.referenceText = "" ∧
     Azure.paConfig.gradingSystem = Azure.GradingSystem.hundredMark ∧
     Azure.paConfig.granularity = Azure.Granularity.phoneme ∧
     Azure.paConfig.enableMiscue = false ∧
     Azure.paConfig.prosodyEnabled = true ∧
     ∃ i j, i < j ∧
       (Azure.startMic demoAzureIdle { key := some "somekey", region := some "koreacentral" }
         true true).2.get? i =
         some (Azure.MicAction.applyPronunciationConfig Azure.paConfig) ∧
       (Azure.startMic demoAzureIdle { key := some "somekey", region := some "koreacentral" }
         true true).2.get? j =
         some Azure.MicAction.startContinuousRecognition) :=
  ⟨by decide, by decide,
   C5_unscripted_config_applied_before_start demoAzureIdle
     { key := some "somekey", region := some "koreacentral" } true
     (by decide) (by decide)⟩

/-- C6: when no buffered utterance passes the recognized-speech filter, the
widget appends "No speech captured.", reports no scores and selects no final
utterance; via `stopMic` the user sees exactly the stop line and that
message. -/
theorem C6_no_speech_captured (buffer : List Azure.SpeechRecognitionResult)
    (h : ∀ r ∈ buffer, Azure.isCandidate r = false) :
    Azure.processBufferedResults buffer =
      { logLines := [Azure.LogEvent.noSpeechCaptured]
        final := none
        reportedScores := none
        bufferAfter := buffer } ∧
    ∀ st : Azure.AzureState, st.recognizer = true → st.buffer = buffer →
      (Azure.stopMic st true).log =
        st.log ++ [Azure.LogEvent.stoppedByUser, Azure.LogEvent.noSpeechCaptured] := by
  have hnil : buffer.filter Azure.isCandidate = [] := by
    rw [List.filter_eq_nil_iff]
    intro a ha
    simp [h a ha]
  refine ⟨Azure.processBufferedResults_nil buffer hnil, ?_⟩
  intro st hrec hbuf
  simp only [Azure.stopMic, hrec, Bool.not_true, Bool.false_eq_true, if_false, if_true,
    hbuf, Azure.processBufferedResults_nil buffer hnil]

/-- Witness for C6 at a concrete buffer containing only a no-match entry. -/
theorem C6_no_speech_captured_witness :
    (∀ r ∈ [demoResultNoMatch], Azure.isCandidate r = false) ∧
    (Azure.processBufferedResults [demoResultNoMatch] =
      { logLines := [Azure.LogEvent.noSpeechCaptured]
        final := none
        reportedScores := none
        bufferAfter := [demoResultNoMatch] } ∧
     ∀ st : Azure.AzureState, st.recognizer = true → st.buffer = [demoResultNoMatch] →
       (Azure.stopMic st true).log =
         st.log ++ [Azure.LogEvent.stoppedByUser, Azure.LogEvent.noSpeechCaptured]) :=
  ⟨by decide, C6_no_speech_captured [demoResultNoMatch] (by decide)⟩

/-- C8: when the microphone permission request fails, `startMic` alerts the
user and returns with the state untouched: no recognizer is constructed and
recognition is not started. -/
theorem C8_permission_denied_terminal
    (st : Azure.AzureState) (env : Azure.AzureEnv) (b : Bool) :
    Azure.startMic st env false b =
      (st, [Azure.MicAction.requestMicPermission, Azure.MicAction.alertMicDenied]) ∧
    Azure.MicAction.alertMicDenied ∈ (Azure.startMic st env false b).2 ∧
    Azure.MicAction.createRecognizer ∉ (Azure.startMic st env false b).2 ∧
    Azure.MicAction.startContinuousRecognition ∉ (Azure.startMic st env false b).2 := by
  refine ⟨rfl, ?_, ?_, ?_⟩ <;> simp [Azure.startMic]

/-- C10: every granted `startMic` call clears the buffer and the log before
recognition starts: the resulting buffer is empty and neither the resulting
log nor the action trace depends on the previous session's state. -/
theorem C10_session_starts_fresh
    (st1 st2 : Azure.AzureState) (env : Azure.AzureEnv) (b : Bool) :
    (Azure.startMic st1 env true b).1.buffer = [] ∧
    (Azure.startMic st1 env true b).1.log = (Azure.startMic st2 env true b).1.log ∧
    (Azure.startMic st1 env true b).2 = (Azure.startMic st2 env true b).2 := by
  by_cases hcond : (jsFalsy env.key || jsFalsy env.region) = true
  · refine ⟨?_, ?_, ?_⟩ <;> simp [Azure.startMic, hcond]
  · have hcond2 : (jsFalsy env.key || jsFalsy env.region) = false := by
      simpa using hcond
    cases b <;> refine ⟨?_, ?_, ?_⟩ <;> simp [Azure.startMic, hcond2]
